import Mathlib

/-!
Verification development for the MMC-100 multi-axis stage control subsystem:
the per-axis driver `StageControl` (MMC 100/modern_stage.py) and the
orchestration layer `StageManager` (MMC 100/modern/stage_manager.py).

Modelling conventions:
* Numeric quantities (microns, millimetres, degrees) are modelled as
  rationals; the source uses Python floats but every property under test is a
  comparison or an exact affine update, so the rational model is faithful.
* The shared serial transport is modelled by explicit oracle parameters:
  a `Bool` for each `_send_command` call (`false` means the call raised before
  any byte was written, e.g. port closed), and a `List (Option Bool)` for the
  status-poll loop (`some b` is the decoded stopped bit of one `STA?` query,
  `none` is a query that raised).  Exhausting a poll list models the loop
  still waiting (for loops with no timeout) or the timeout branch
  (for `_wait_for_move_completion`, which has a 30 s timeout).
* The `POS?` query is modelled at two levels.  `query_pos` renders the
  `_query_command` POS? branch at the byte level and shows it always raises
  (line 190 passes a str argument to bytes.strip); the completion monitor
  routes through it, so its MOVE_COMPLETED logic is provably dead code.  In
  `home` (direction 1), `home_limits` and `get_position` the read is kept as
  an `Option (List ℚ)` oracle — the comma-separated fields the branch is
  written to produce, `none` for a raise; on the real device only the `none`
  value ever occurs (for `home_limits` the real run aborts at its first POS?
  read and never sends ZRO or MLP), and the outcomes these operations are
  judged on — failure, no limits rewrite, default reading, cache untouched —
  coincide with that always-failing trace.
* Every driver operation returns the written wire commands and the emitted
  motor events so that "no command sent" and event claims are statable.
  Event emission is Modelled from the spec for the missing `motors_hal`
  module: `_emit_event` delivers to observers in isolation and never raises,
  so events are plain appended values.
* Error payload strings are not modelled; events carry only structured data.
-/

inductive AxisType
  | X | Y | Z | ROTATION_FIBER | ROTATION_CHIP | ALL
deriving DecidableEq

/-- StageControl.AXIS_MAP (modern_stage.py lines 50-57). -/
def AXIS_MAP : AxisType → Nat
  | .X => 1
  | .Y => 2
  | .Z => 3
  | .ROTATION_FIBER => 4
  | .ROTATION_CHIP => 5
  | .ALL => 0

/-- One ASCII command written to the serial transport, without its numeric
axis prefix.  `STA` and `POS` are the query commands `STA?` / `POS?`. -/
inductive Cmd
  | FBK3
  | VEL (v : ℚ)
  | MVA (mm : ℚ)
  | MVR (mm : ℚ)
  | MLN
  | MLP
  | ZRO
  | STP
  | STA
  | POS
deriving DecidableEq

/-- A framed wire command: numeric axis prefix plus opcode. -/
structure Wire where
  axisNum : Nat
  cmd : Cmd
deriving DecidableEq

/-- Motor lifecycle events (MotorEventType of the missing motors_hal module;
Modelled from the spec section 4.5: typed notifications MoveStarted,
MoveCompleted, Homed, Error with key/value payloads).  Only the payload
fields inspected by the claims are carried. -/
inductive Event
  | moveStarted (target : Option ℚ)
  | moveCompleted (target actual : ℚ) (success : Bool)
  | homed
  | errorOccurred
deriving DecidableEq

/-- The per-axis mutable state of one `StageControl` instance together with
its construction parameters (modern_stage.py lines 59-99). -/
structure Driver where
  axis : AxisType
  velocity : ℚ
  position_tolerance : ℚ
  position_limits : ℚ × ℚ
  last_position : ℚ
  is_homed : Bool
  move_in_progress : Bool
  target_position : Option ℚ
deriving DecidableEq

/-- Result of one driver operation: returned value, updated driver state,
commands written to the transport, events emitted. -/
structure DriverOut (α : Type) where
  ret : α
  drv : Driver
  wire : List Wire
  events : List Event
deriving DecidableEq

/-- A Python-level error: `typeError` for a wrong-type operation (unpacking
a non-iterable, or bytes.strip given a str argument), `keyError` for a
missing dict key, `exception` for a plain raise such as the empty-read
raise at modern_stage.py line 189. -/
inductive PyErr
  | typeError
  | keyError
  | exception
deriving DecidableEq

namespace StageControl

/-- StageControl.move_absolute (modern_stage.py lines 308-359).  The bounds
check `position > lo and position < hi` is strict; on violation the body
raises, the handler emits ERROR_OCCURRED and returns False with no command
written.  `sendOk = false` models `_send_command` raising (port closed)
before any byte is written.  The optional velocity override of the source is
accepted and ignored there (lines 319-321), so it is omitted here. -/
def move_absolute (d : Driver) (position : ℚ) (sendOk : Bool) : DriverOut Bool :=
  if d.position_limits.1 < position ∧ position < d.position_limits.2 then
    if sendOk then
      { ret := true
        drv := { d with move_in_progress := true, target_position := some position }
        wire := [⟨AXIS_MAP d.axis, Cmd.MVA (position / 1000)⟩]
        events := [Event.moveStarted (some position)] }
    else
      { ret := false, drv := d, wire := [], events := [Event.errorOccurred] }
  else
    { ret := false, drv := d, wire := [], events := [Event.errorOccurred] }

/-- StageControl.move_relative (modern_stage.py lines 361-415).  The inner
`_move_rel` returns the projected target `last_position + distance` on
success and None on failure; the outer coroutine returns `pos is not None`.
`ret` is that inner value, so the Python boolean result is `ret.isSome`. -/
def move_relative (d : Driver) (distance : ℚ) (sendOk : Bool) : DriverOut (Option ℚ) :=
  if d.position_limits.1 < d.last_position + distance ∧
      d.last_position + distance < d.position_limits.2 then
    if sendOk then
      { ret := some (d.last_position + distance)
        drv := { d with move_in_progress := true
                        target_position := some (d.last_position + distance) }
        wire := [⟨AXIS_MAP d.axis, Cmd.MVR (distance / 1000)⟩]
        events := [Event.moveStarted (some (d.last_position + distance))] }
    else
      { ret := none, drv := d, wire := [], events := [Event.errorOccurred] }
  else
    { ret := none, drv := d, wire := [], events := [Event.errorOccurred] }

/-- One status-poll loop over scripted `STA?` outcomes: returns
`some (true, k)` when the k-th query (1-based) reports stopped,
`some (false, k)` when the k-th query raises, and `none` when the script is
exhausted with the motor still reporting moving. -/
def pollLoop : List (Option Bool) → Option (Bool × Nat)
  | [] => none
  | none :: _ => some (false, 1)
  | some true :: _ => some (true, 1)
  | some false :: rest => (pollLoop rest).map (fun p => (p.1, p.2 + 1))

/-- The `STA?` wire commands written by `n` poll iterations. -/
def staWires (k : Nat) (axisNum : Nat) : List Wire :=
  List.replicate k ⟨axisNum, Cmd.STA⟩

/-- The POS? branch of StageControl._query_command (modern_stage.py lines
185-192), over the raw byte buffer that serial.read(20) returns (pyserial
returns bytes; this is Python 3 code).  An empty read raises a plain
Exception at line 189; a nonempty read reaches line 190, where the code
calls bytes.strip with a str argument, which always raises TypeError.  Note
the STA? branch of the same function correctly indexes the buffer as bytes,
so status polls work while every position decode raises: this branch can
never return its parsed field list, and its declared success type is dead. -/
def query_pos (raw : List Nat) : Except PyErr (List ℚ) :=
  match raw with
  | [] => Except.error PyErr.exception
  | _ :: _ => Except.error PyErr.typeError

/-- StageControl._wait_for_move_completion's `_monitor_completion`
(modern_stage.py lines 223-305).  Polls `STA?` until stopped (or timeout =
script exhausted, or a status query raises), then issues the `POS?` query of
line 242 — whose decode always raises (see `query_pos`), so the success
logic of lines 244-279 (parse, mm to um conversion, cache update, tolerance
check and the MOVE_COMPLETED event) is unreachable dead code.  It is
transcribed in the `Except.ok` branch below so the intended contract stays
visible, but every run that reaches the stop poll ends in the handler of
lines 294-303: ERROR_OCCURRED emitted, False returned, cache untouched.
All exits clear `move_in_progress` and `target_position`.  `posRaw` is the
raw byte buffer the controller answers to the `POS?` query. -/
def wait_for_move_completion (d : Driver) (target : ℚ)
    (sts : List (Option Bool)) (posRaw : List Nat) : DriverOut Bool :=
  let n := AXIS_MAP d.axis
  match pollLoop sts with
  | none =>
      { ret := false
        drv := { d with move_in_progress := false, target_position := none }
        wire := staWires sts.length n
        events := [Event.errorOccurred] }
  | some (false, k) =>
      { ret := false
        drv := { d with move_in_progress := false, target_position := none }
        wire := staWires k n
        events := [Event.errorOccurred] }
  | some (true, k) =>
      match query_pos posRaw with
      | Except.error _ =>
          { ret := false
            drv := { d with move_in_progress := false, target_position := none }
            wire := staWires k n ++ [⟨n, Cmd.POS⟩]
            events := [Event.errorOccurred] }
      | Except.ok xs =>
          match xs.get? 0 with
          | none =>
              { ret := false
                drv := { d with move_in_progress := false, target_position := none }
                wire := staWires k n ++ [⟨n, Cmd.POS⟩]
                events := [Event.errorOccurred] }
          | some mm =>
              if |mm * 1000 - target| ≤ d.position_tolerance then
                { ret := true
                  drv := { d with last_position := mm * 1000
                                  move_in_progress := false
                                  target_position := none }
                  wire := staWires k n ++ [⟨n, Cmd.POS⟩]
                  events := [Event.moveCompleted target (mm * 1000) true] }
              else
                { ret := false
                  drv := { d with last_position := mm * 1000
                                  move_in_progress := false
                                  target_position := none }
                  wire := staWires k n ++ [⟨n, Cmd.POS⟩]
                  events := [Event.moveCompleted target (mm * 1000) false] }

/-- move_relative with wait_for_completion=True followed by its spawned
completion monitor (modern_stage.py lines 408-415 create the background task;
the composition here is the observable run of both).  `ret` is the monitor
outcome when the move was accepted; the Python coroutine itself already
returned True at spawn time. -/
def move_relative_and_wait (d : Driver) (distance : ℚ) (sendOk : Bool)
    (sts : List (Option Bool)) (posRaw : List Nat) : DriverOut Bool :=
  match (move_relative d distance sendOk).ret with
  | none =>
      { ret := false
        drv := (move_relative d distance sendOk).drv
        wire := (move_relative d distance sendOk).wire
        events := (move_relative d distance sendOk).events }
  | some t =>
      let mr := move_relative d distance sendOk
      let mon := wait_for_move_completion mr.drv t sts posRaw
      { ret := mon.ret, drv := mon.drv
        wire := mr.wire ++ mon.wire
        events := mr.events ++ mon.events }

/-- The fresh value returned by StageControl.get_position (the fields of the
`Position` snapshot that the claims inspect; units/timestamp omitted). -/
structure PosReading where
  theoretical : ℚ
  actual : ℚ
deriving DecidableEq

/-- StageControl.get_position's `_get_pos` (modern_stage.py lines 449-483).
`resp` is the outcome of `_query_command(POS?)`: `some xs` the parsed
comma-separated fields, `none` a raised exception.  On success the first two
fields are converted mm→um and the cache is updated; on any failure
(exception, or fewer than two fields, an IndexError) the handler returns the
defaulted `Position(0.0, 0.0, ...)` and the cache is untouched. -/
def get_position (d : Driver) (resp : Option (List ℚ)) : PosReading × Driver :=
  match resp.bind (fun xs => (xs.get? 0).bind (fun t => (xs.get? 1).map (fun a => (t, a)))) with
  | some (t, a) =>
      ({ theoretical := t * 1000, actual := a * 1000 }, { d with last_position := a * 1000 })
  | none => ({ theoretical := 0, actual := 0 }, d)

/-- StageControl.home's `_home` (modern_stage.py lines 564-616).
direction 0 homes to the negative limit (MLN, poll until stopped, ZRO, zero
the cache, set is_homed); any other direction homes to the positive limit and
reads `POS?` as the new reference.  The except handler (lines 607-614)
returns True when `_is_homed` is already true ("Exception caught but homing
complete") and False otherwise.  `ret = none` models the untimed
`while True` poll loop still waiting.  Note the source never clears
`_move_in_progress` in this method, so it stays true on every path. -/
def home (d : Driver) (direction : Nat) (sendOk : Bool)
    (sts : List (Option Bool)) (zroOk : Bool) (posr : Option (List ℚ)) :
    DriverOut (Option Bool) :=
  let n := AXIS_MAP d.axis
  let d1 := { d with move_in_progress := true, is_homed := false }
  let ev0 := [Event.moveStarted none]
  if sendOk then
    let mv : Wire := if direction = 0 then ⟨n, Cmd.MLN⟩ else ⟨n, Cmd.MLP⟩
    match pollLoop sts with
    | none =>
        { ret := none, drv := d1, wire := mv :: staWires sts.length n, events := ev0 }
    | some (false, k) =>
        { ret := some false, drv := d1, wire := mv :: staWires k n
          events := ev0 ++ [Event.errorOccurred] }
    | some (true, k) =>
        if direction = 0 then
          if zroOk then
            { ret := some true
              drv := { d1 with is_homed := true, last_position := 0 }
              wire := mv :: (staWires k n ++ [⟨n, Cmd.ZRO⟩])
              events := ev0 ++ [Event.homed] }
          else
            { ret := some false, drv := d1, wire := mv :: staWires k n
              events := ev0 ++ [Event.errorOccurred] }
        else
          match posr.bind (fun xs => xs.get? 0) with
          | none =>
              { ret := some false, drv := d1
                wire := mv :: (staWires k n ++ [⟨n, Cmd.POS⟩])
                events := ev0 ++ [Event.errorOccurred] }
          | some mm =>
              { ret := some true
                drv := { d1 with is_homed := true, last_position := mm * 1000 }
                wire := mv :: (staWires k n ++ [⟨n, Cmd.POS⟩])
                events := ev0 ++ [Event.homed] }
  else
    { ret := some false, drv := d1, wire := [], events := ev0 ++ [Event.errorOccurred] }

/-- Transport oracle for one StageControl.home_limits run: the MLN send, the
first poll loop, the negative-end `POS?` read, the ZRO send, the MLP send,
the second poll loop, and the positive-end `POS?` read. -/
structure HLOracle where
  sendMLN : Bool
  sts1 : List (Option Bool)
  pos1 : Option (List ℚ)
  zroOk : Bool
  sendMLP : Bool
  sts2 : List (Option Bool)
  pos2 : Option (List ℚ)
deriving DecidableEq

/-- StageControl.home_limits's `_home_limits` (modern_stage.py lines
618-686).  Drives to the negative limit, reads the raw position there,
zeroes, drives to the positive limit, reads `POS?` again — and then line 671
evaluates `pos_resp2.split(",")` on the value returned by the `POS?` branch
of `_query_command`, which is a Python list (line 192); a list has no
`split` method, so this always raises AttributeError.  The remaining steps
(recording the travel, rewriting `_position_limits` at line 676, the HOMED
event, `return True`) are unreachable, and the handler emits ERROR_OCCURRED
and returns False.  `ret = none` models one of the two untimed poll loops
still waiting. -/
def home_limits (d : Driver) (o : HLOracle) : DriverOut (Option Bool) :=
  let n := AXIS_MAP d.axis
  let ev0 := [Event.moveStarted none]
  if o.sendMLN then
    match pollLoop o.sts1 with
    | none =>
        { ret := none, drv := d
          wire := ⟨n, Cmd.MLN⟩ :: staWires o.sts1.length n, events := ev0 }
    | some (false, k1) =>
        { ret := some false, drv := d
          wire := ⟨n, Cmd.MLN⟩ :: staWires k1 n
          events := ev0 ++ [Event.errorOccurred] }
    | some (true, k1) =>
        match o.pos1.bind (fun xs => xs.get? 0) with
        | none =>
            { ret := some false, drv := d
              wire := ⟨n, Cmd.MLN⟩ :: (staWires k1 n ++ [⟨n, Cmd.POS⟩])
              events := ev0 ++ [Event.errorOccurred] }
        | some _negMM =>
            if o.zroOk then
              let d2 := { d with last_position := 0 }
              let w2 := ⟨n, Cmd.MLN⟩ :: (staWires k1 n ++ [⟨n, Cmd.POS⟩, ⟨n, Cmd.ZRO⟩])
              if o.sendMLP then
                match pollLoop o.sts2 with
                | none =>
                    { ret := none, drv := d2
                      wire := w2 ++ (⟨n, Cmd.MLP⟩ :: staWires o.sts2.length n)
                      events := ev0 }
                | some (false, k2) =>
                    { ret := some false, drv := d2
                      wire := w2 ++ (⟨n, Cmd.MLP⟩ :: staWires k2 n)
                      events := ev0 ++ [Event.errorOccurred] }
                | some (true, k2) =>
                    { ret := some false, drv := d2
                      wire := w2 ++ (⟨n, Cmd.MLP⟩ :: (staWires k2 n ++ [⟨n, Cmd.POS⟩]))
                      events := ev0 ++ [Event.errorOccurred] }
              else
                { ret := some false, drv := d2, wire := w2
                  events := ev0 ++ [Event.errorOccurred] }
            else
              { ret := some false, drv := d
                wire := ⟨n, Cmd.MLN⟩ :: (staWires k1 n ++ [⟨n, Cmd.POS⟩])
                events := ev0 ++ [Event.errorOccurred] }
  else
    { ret := some false, drv := d, wire := [], events := ev0 ++ [Event.errorOccurred] }

end StageControl

/-- The per-axis fields of StageConfiguration consumed when constructing and
guarding drivers (stage_manager.py lines 138-207). -/
structure MgrConfig where
  velocities : AxisType → ℚ
  position_limits : AxisType → ℚ × ℚ
  position_tolerance : ℚ

/-- StageManager's own state: configuration, the live motor set
`self.motors`, and the cached `self._last_positions` (stage_manager.py lines
211-216).  Both dicts are modelled as optional-valued maps. -/
structure ManagerState where
  cfg : MgrConfig
  motors : AxisType → Option Driver
  lastPositions : AxisType → Option ℚ

/-- Overwrite one entry of the live motor set. -/
def setMotor (m : ManagerState) (a : AxisType) (d : Driver) : ManagerState :=
  { m with motors := fun b => if b = a then some d else m.motors b }

/-- Overwrite one entry of the cached last positions. -/
def setLastPos (m : ManagerState) (a : AxisType) (p : ℚ) : ManagerState :=
  { m with lastPositions := fun b => if b = a then some p else m.lastPositions b }

/-- Driver construction performed inside StageManager.initialize
(stage_manager.py lines 269-282): one StageControl per axis, parameterized
from the StageConfiguration; fresh runtime state as in StageControl.__init__
(modern_stage.py lines 94-99). -/
def createDriver (cfg : MgrConfig) (a : AxisType) : Driver :=
  { axis := a
    velocity := cfg.velocities a
    position_tolerance := cfg.position_tolerance
    position_limits := cfg.position_limits a
    last_position := 0
    is_homed := false
    move_in_progress := false
    target_position := none }

/-- A call the StageManager makes into a driver, in call order. -/
inductive MgrCall
  | moveAbs (axis : AxisType) (target : ℚ)
  | moveRel (axis : AxisType) (distance : ℚ)
  | homeLims (axis : AxisType)
deriving DecidableEq

/-- Result of one StageManager operation: `ret = none` models an operation
that never returns (a driver poll loop with no timeout still waiting),
`some (Except.error e)` an uncaught Python exception, `some (Except.ok b)`
a returned truthiness value.  `calls` is the ordered list of driver calls
issued and `wire` the concatenated transport writes. -/
structure MgrOut where
  ret : Option (Except PyErr Bool)
  st : ManagerState
  calls : List MgrCall
  wire : List Wire

namespace StageManager

/-- StageManager.initialize (stage_manager.py lines 257-293): for each
requested axis, build a driver from the configuration and connect it
(`connOk a` is the outcome of `motor.connect()`, with `_safe_execute`
turning exceptions into False); only connected axes are added to
`self.motors` / `self._last_positions`.  Returns `all(results.values())`,
which for a pure connect outcome equals the conjunction over the requested
list.  Renamed from `initialize` because that is a Lean keyword. -/
def initialize_axes (m : ManagerState) (axes : List AxisType)
    (connOk : AxisType → Bool) : Bool × ManagerState :=
  match axes with
  | [] => (true, m)
  | a :: rest =>
      let m1 := if connOk a then setLastPos (setMotor m a (createDriver m.cfg a)) a 0 else m
      let r := initialize_axes m1 rest connOk
      (connOk a && r.1, r.2)

/-- StageManager.home_limits (stage_manager.py lines 308-324).  For the Z
axis it first issues `self.motors[AxisType.Y].move_absolute(
self.config.position_limits[AxisType.Y][1], wait_for_completion=True)` and
returns False when that reports failure; looking up a missing Y motor raises
KeyError.  It then awaits the axis driver's home_limits and executes
`ok, pos_lims = <bool>` (line 321), which raises TypeError because a bool
cannot be unpacked — so the config rewrite at line 323 is unreachable and
every completing run raises.  `requires_motor` (lines 219-226) returns False
when the requested axis is not live.  The Y move's background completion
monitor is not part of this trace (the manager does not await it). -/
def home_limits (m : ManagerState) (axis : AxisType) (ySend : Bool)
    (o : StageControl.HLOracle) : MgrOut :=
  match m.motors axis with
  | none => { ret := some (Except.ok false), st := m, calls := [], wire := [] }
  | some dA =>
      if axis = AxisType.Z then
        match m.motors AxisType.Y with
        | none => { ret := some (Except.error PyErr.keyError), st := m, calls := [], wire := [] }
        | some dY =>
            let yhi := (m.cfg.position_limits AxisType.Y).2
            let yOut := StageControl.move_absolute dY yhi ySend
            let m1 := setMotor m AxisType.Y yOut.drv
            if yOut.ret then
              let hOut := StageControl.home_limits dA o
              { ret := hOut.ret.map (fun _ => Except.error PyErr.typeError)
                st := setMotor m1 axis hOut.drv
                calls := [MgrCall.moveAbs AxisType.Y yhi, MgrCall.homeLims axis]
                wire := yOut.wire ++ hOut.wire }
            else
              { ret := some (Except.ok false), st := m1
                calls := [MgrCall.moveAbs AxisType.Y yhi], wire := yOut.wire }
      else
        let hOut := StageControl.home_limits dA o
        { ret := hOut.ret.map (fun _ => Except.error PyErr.typeError)
          st := setMotor m axis hOut.drv
          calls := [MgrCall.homeLims axis]
          wire := hOut.wire }

/-- StageManager.move_single_axis (stage_manager.py lines 355-383): guarded
by requires_motor; delegates to the driver's move_relative / move_absolute
and, on a truthy result, advances `self._last_positions[axis] += position`
in relative mode but assigns `self._last_positions[axis] = position` in
absolute mode. -/
def move_single_axis (m : ManagerState) (axis : AxisType) (position : ℚ)
    (relative : Bool) (sendOk : Bool) : MgrOut :=
  match m.motors axis with
  | none => { ret := some (Except.ok false), st := m, calls := [], wire := [] }
  | some d =>
      if relative then
        let leg := StageControl.move_relative d position sendOk
        let m1 := setMotor m axis leg.drv
        if leg.ret.isSome then
          match m.lastPositions axis with
          | none =>
              { ret := some (Except.error PyErr.keyError), st := m1
                calls := [MgrCall.moveRel axis position], wire := leg.wire }
          | some p =>
              { ret := some (Except.ok true), st := setLastPos m1 axis (p + position)
                calls := [MgrCall.moveRel axis position], wire := leg.wire }
        else
          { ret := some (Except.ok false), st := m1
            calls := [MgrCall.moveRel axis position], wire := leg.wire }
      else
        let leg := StageControl.move_absolute d position sendOk
        let m1 := setMotor m axis leg.drv
        if leg.ret then
          { ret := some (Except.ok true), st := setLastPos m1 axis position
            calls := [MgrCall.moveAbs axis position], wire := leg.wire }
        else
          { ret := some (Except.ok false), st := m1
            calls := [MgrCall.moveAbs axis position], wire := leg.wire }

/-- StageManager.move_xy_rel (stage_manager.py lines 385-418): requires X
and Y live, launches the two relative legs concurrently and gathers both;
on any leg failing it logs and returns False with the cached positions left
untouched; when both succeed it advances both cached positions by the
commanded distances and returns the (truthy) pair `(aok, bok)`, modelled as
`Except.ok true`.  `wire` is one linearization of the two concurrent legs'
writes (the transport lock serializes but does not order them). -/
def move_xy_rel (m : ManagerState) (dx dy : ℚ) (sx sy : Bool) : MgrOut :=
  match m.motors AxisType.X, m.motors AxisType.Y with
  | some dX, some dY =>
      let lx := StageControl.move_relative dX dx sx
      let ly := StageControl.move_relative dY dy sy
      let m1 := setMotor (setMotor m AxisType.X lx.drv) AxisType.Y ly.drv
      let calls := [MgrCall.moveRel AxisType.X dx, MgrCall.moveRel AxisType.Y dy]
      let wire := lx.wire ++ ly.wire
      if lx.ret.isSome && ly.ret.isSome then
        match m.lastPositions AxisType.X with
        | none => { ret := some (Except.error PyErr.keyError), st := m1, calls := calls, wire := wire }
        | some px =>
            match m.lastPositions AxisType.Y with
            | none =>
                { ret := some (Except.error PyErr.keyError)
                  st := setLastPos m1 AxisType.X (px + dx), calls := calls, wire := wire }
            | some py =>
                { ret := some (Except.ok true)
                  st := setLastPos (setLastPos m1 AxisType.X (px + dx)) AxisType.Y (py + dy)
                  calls := calls, wire := wire }
      else
        { ret := some (Except.ok false), st := m1, calls := calls, wire := wire }
  | _, _ => { ret := some (Except.ok false), st := m, calls := [], wire := [] }

/-- StageManager.move_xy_absolute (stage_manager.py lines 420-454): same
shape as move_xy_rel but with absolute legs — and on success it still
executes `self._last_positions[...] += xy_distance[...]` (lines 451-452),
adding the targets to the cached positions instead of assigning them. -/
def move_xy_absolute (m : ManagerState) (px py : ℚ) (sx sy : Bool) : MgrOut :=
  match m.motors AxisType.X, m.motors AxisType.Y with
  | some dX, some dY =>
      let lx := StageControl.move_absolute dX px sx
      let ly := StageControl.move_absolute dY py sy
      let m1 := setMotor (setMotor m AxisType.X lx.drv) AxisType.Y ly.drv
      let calls := [MgrCall.moveAbs AxisType.X px, MgrCall.moveAbs AxisType.Y py]
      let wire := lx.wire ++ ly.wire
      if lx.ret && ly.ret then
        match m.lastPositions AxisType.X with
        | none => { ret := some (Except.error PyErr.keyError), st := m1, calls := calls, wire := wire }
        | some qx =>
            match m.lastPositions AxisType.Y with
            | none =>
                { ret := some (Except.error PyErr.keyError)
                  st := setLastPos m1 AxisType.X (qx + px), calls := calls, wire := wire }
            | some qy =>
                { ret := some (Except.ok true)
                  st := setLastPos (setLastPos m1 AxisType.X (qx + px)) AxisType.Y (qy + py)
                  calls := calls, wire := wire }
      else
        { ret := some (Except.ok false), st := m1, calls := calls, wire := wire }
  | _, _ => { ret := some (Except.ok false), st := m, calls := [], wire := [] }

end StageManager

/-! Concrete fixtures used by counterexamples and witnesses.  `d347` mirrors
an X-axis driver as StageManager.initialize builds it from the default
StageConfiguration (X soft limits (-24940, 20000), tolerance 1 um). -/

def cfg347 : MgrConfig :=
  { velocities := fun _ => 2000
    position_limits := fun a =>
      match a with
      | AxisType.X => (-24940, 20000)
      | AxisType.Y => (-30400, 20000)
      | AxisType.Z => (-11100, 20000)
      | AxisType.ROTATION_FIBER => (-180, 180)
      | AxisType.ROTATION_CHIP => (-180, 180)
      | AxisType.ALL => (-50000, 50000)
    position_tolerance := 1 }

def d347 : Driver := createDriver cfg347 AxisType.X

/-- A driver whose cached position is 500 um, for the get_position claims. -/
def d500 : Driver := { d347 with last_position := 500 }

/-! ## C1 -/

/-- C1, counterexample.  The claim says an out-of-limits `move_absolute(p)`
returns a typed LimitViolation error, not an undifferentiated false.  On the
default X axis (limits (-24940, 20000)), `move_absolute(25000)` produces the
boolean `False` with an ERROR_OCCURRED event — byte-for-byte the same
observable outcome as `move_absolute(1000)` failing on a broken transport —
so the caller receives an undifferentiated false, with no typed error value
anywhere in the return. -/
theorem C1_undifferentiated_false_counterexample :
    (StageControl.move_absolute d347 25000 true).ret = false ∧
    (StageControl.move_absolute d347 25000 true).wire = [] ∧
    StageControl.move_absolute d347 25000 true =
      StageControl.move_absolute d347 1000 false := by
  refine ⟨rfl, rfl, ?_⟩
  decide

/-- C1 (amended): for every configured axis and every target `p` outside the
open interval `(lo, hi)` of the axis's position limits, `move_absolute(p)`
writes nothing to the transport, leaves the driver state unchanged, emits an
ERROR_OCCURRED event, and returns the plain boolean `False` (not a typed
LimitViolation). -/
theorem C1_move_absolute_out_of_limits (d : Driver) (p : ℚ) (s : Bool)
    (h : p ≤ d.position_limits.1 ∨ d.position_limits.2 ≤ p) :
    StageControl.move_absolute d p s =
      { ret := false, drv := d, wire := [], events := [Event.errorOccurred] } := by
  have hcond : ¬ (d.position_limits.1 < p ∧ p < d.position_limits.2) := by
    rcases h with h | h
    · exact fun hc => absurd hc.1 (not_lt.mpr h)
    · exact fun hc => absurd hc.2 (not_lt.mpr h)
  unfold StageControl.move_absolute
  simp [hcond]

/-- C1 witness: the amended theorem applied at the scenario input of the
spec (X axis, target 25000 um beyond the +20000 limit). -/
theorem C1_move_absolute_out_of_limits_witness :
    ((25000 : ℚ) ≤ d347.position_limits.1 ∨ d347.position_limits.2 ≤ 25000) ∧
    StageControl.move_absolute d347 25000 true =
      { ret := false, drv := d347, wire := [], events := [Event.errorOccurred] } :=
  ⟨Or.inr (by decide),
   C1_move_absolute_out_of_limits d347 25000 true (Or.inr (by decide))⟩

/-! ## C9 -/

/-- C9: both bounds checks are strict, so a target exactly equal to either
soft limit is rejected with no transport write and no driver-state change:
`move_absolute` at `lo` or at `hi` returns False, and `move_relative` whose
projected target `last_position + distance` lands exactly on a limit returns
None (reported as False by the coroutine), all with an empty wire trace. -/
theorem C9_boundary_targets_rejected (d : Driver) (s : Bool) (dist : ℚ)
    (h : d.last_position + dist = d.position_limits.1 ∨
         d.last_position + dist = d.position_limits.2) :
    StageControl.move_absolute d d.position_limits.1 s =
      { ret := false, drv := d, wire := [], events := [Event.errorOccurred] } ∧
    StageControl.move_absolute d d.position_limits.2 s =
      { ret := false, drv := d, wire := [], events := [Event.errorOccurred] } ∧
    StageControl.move_relative d dist s =
      { ret := none, drv := d, wire := [], events := [Event.errorOccurred] } := by
  refine ⟨?_, ?_, ?_⟩
  · unfold StageControl.move_absolute
    have : ¬ (d.position_limits.1 < d.position_limits.1 ∧
        d.position_limits.1 < d.position_limits.2) := fun hc => lt_irrefl _ hc.1
    simp [this]
  · unfold StageControl.move_absolute
    have : ¬ (d.position_limits.1 < d.position_limits.2 ∧
        d.position_limits.2 < d.position_limits.2) := fun hc => lt_irrefl _ hc.2
    simp [this]
  · unfold StageControl.move_relative
    have : ¬ (d.position_limits.1 < d.last_position + dist ∧
        d.last_position + dist < d.position_limits.2) := by
      rcases h with h | h
      · exact fun hc => absurd hc.1 (by rw [h]; exact lt_irrefl _)
      · exact fun hc => absurd hc.2 (by rw [h]; exact lt_irrefl _)
    simp [this]

/-- C9 witness: on the default X axis with cached position 0, a relative
move of exactly +20000 um projects onto the upper limit and is rejected,
as are absolute moves to either exact limit. -/
theorem C9_boundary_targets_rejected_witness :
    (d347.last_position + 20000 = d347.position_limits.1 ∨
     d347.last_position + 20000 = d347.position_limits.2) ∧
    (StageControl.move_absolute d347 d347.position_limits.1 true =
      { ret := false, drv := d347, wire := [], events := [Event.errorOccurred] } ∧
     StageControl.move_absolute d347 d347.position_limits.2 true =
      { ret := false, drv := d347, wire := [], events := [Event.errorOccurred] } ∧
     StageControl.move_relative d347 20000 true =
      { ret := none, drv := d347, wire := [], events := [Event.errorOccurred] }) :=
  ⟨Or.inr (by norm_num [d347, createDriver, cfg347]),
   C9_boundary_targets_rejected d347 true 20000
     (Or.inr (by norm_num [d347, createDriver, cfg347]))⟩

/-! ## C5 -/

/-- C5, counterexample.  The claim says a failed position query makes
get_position return the error to the caller.  In the code the handler
(modern_stage.py line 479-481) instead returns the defaulted
`Position(0.0, 0.0, "um", ...)`: with the cache at 500 um, a raising query
yields the same success-shaped reading as a genuine read of a stage parked
at 0, and no error value exists in the return type.  (The other half of the
claim — the cached position is left unchanged — does hold: the state comes
back as `d500`.) -/
theorem C5_default_position_counterexample :
    StageControl.get_position d500 none = ({ theoretical := 0, actual := 0 }, d500) ∧
    (StageControl.get_position d500 none).1 =
      (StageControl.get_position d347 (some [0, 0])).1 := by
  constructor
  · rfl
  · show ({ theoretical := 0, actual := 0 } : StageControl.PosReading) = _
    unfold StageControl.get_position
    norm_num

/-- C5 (amended): when the position query inside get_position fails (raised
query, or a response with fewer than two fields), get_position leaves the
cached position unchanged but returns the defaulted reading (0.0, 0.0) as an
ordinary success value rather than returning the error; when the query
succeeds with fields `t, a` (mm) it returns the fresh reading and caches
`a * 1000` um. -/
theorem C5_get_position_failure_behaviour (d : Driver) (xs : List ℚ) (t a : ℚ)
    (h0 : xs.get? 0 = some t) (h1 : xs.get? 1 = some a) :
    (StageControl.get_position d none = ({ theoretical := 0, actual := 0 }, d) ∧
     ∀ short : List ℚ, short.get? 1 = none →
       StageControl.get_position d (some short) =
         ({ theoretical := 0, actual := 0 }, d)) ∧
    StageControl.get_position d (some xs) =
      ({ theoretical := t * 1000, actual := a * 1000 },
        { d with last_position := a * 1000 }) := by
  refine ⟨⟨rfl, ?_⟩, ?_⟩
  · intro short hshort
    unfold StageControl.get_position
    rw [List.get?_eq_getElem?] at hshort
    rcases h : short[0]? with _ | v <;> simp [h, hshort]
  · unfold StageControl.get_position
    rw [List.get?_eq_getElem?] at h0 h1
    simp [h0, h1]

/-- C5 witness: the amended theorem applied to a concrete driver (cache at
500 um) and the concrete two-field response (3 mm, 5/2 mm). -/
theorem C5_get_position_failure_behaviour_witness :
    (([3, 5/2] : List ℚ).get? 0 = some 3 ∧ ([3, 5/2] : List ℚ).get? 1 = some (5/2)) ∧
    ((StageControl.get_position d500 none = ({ theoretical := 0, actual := 0 }, d500) ∧
      ∀ short : List ℚ, short.get? 1 = none →
        StageControl.get_position d500 (some short) =
          ({ theoretical := 0, actual := 0 }, d500)) ∧
     StageControl.get_position d500 (some [3, 5/2]) =
       ({ theoretical := 3 * 1000, actual := 5/2 * 1000 },
         { d500 with last_position := 5/2 * 1000 })) :=
  ⟨⟨rfl, rfl⟩, C5_get_position_failure_behaviour d500 [3, 5/2] 3 (5/2) rfl rfl⟩

/-! ## C3 -/

/-- C3: homing toward the negative limit (direction 0), once the poll loop
confirms the stop and the ZRO command is accepted, returns success with the
cached position zeroed and is_homed set; and, for every direction and every
transport oracle, any home() run whose final driver state has is_homed true
reports success — the except handler (modern_stage.py lines 607-614) turns a
transport error raised after homing was confirmed into True, so a late error
never erases a confirmed home. -/
theorem C3_home_negative_limit (d : Driver) (sts : List (Option Bool)) (k : Nat)
    (hstop : StageControl.pollLoop sts = some (true, k)) :
    ((StageControl.home d 0 true sts true none).ret = some true ∧
     (StageControl.home d 0 true sts true none).drv.last_position = 0 ∧
     (StageControl.home d 0 true sts true none).drv.is_homed = true) ∧
    (∀ (d2 : Driver) (dir : Nat) (s z : Bool) (sts2 : List (Option Bool))
        (pr : Option (List ℚ)),
      (StageControl.home d2 dir s sts2 z pr).drv.is_homed = true →
      (StageControl.home d2 dir s sts2 z pr).ret = some true) := by
  constructor
  · unfold StageControl.home
    simp [hstop]
  · intro d2 dir s z sts2 pr
    unfold StageControl.home
    cases s with
    | false => simp
    | true =>
        rcases hpl : StageControl.pollLoop sts2 with _ | ⟨b, k2⟩
        · simp [hpl]
        · cases b with
          | false => simp [hpl]
          | true =>
              by_cases hdir : dir = 0
              · cases z with
                | false => simp [hpl, hdir]
                | true => simp [hpl, hdir]
              · rcases hpr : pr.bind (fun xs => xs.get? 0) with _ | mm
                · simp [hpl, hdir, hpr]
                · simp [hpl, hdir, hpr]

/-- C3 witness: the theorem applied to the default X axis with a concrete
poll script (one moving poll, then stopped at the second). -/
theorem C3_home_negative_limit_witness :
    StageControl.pollLoop [some false, some true] = some (true, 2) ∧
    ((StageControl.home d347 0 true [some false, some true] true none).ret = some true ∧
     (StageControl.home d347 0 true [some false, some true] true none).drv.last_position = 0 ∧
     (StageControl.home d347 0 true [some false, some true] true none).drv.is_homed = true) :=
  ⟨rfl, (C3_home_negative_limit d347 [some false, some true] 2 rfl).1⟩

/-! ## C8 -/

/-- ASCII byte buffer of a well-formed controller POS? response for the C8
evaluation (the digits of 0.050,0.050 prefixed by the pound framing byte 35
and terminated by CR LF): even this fully cooperative answer raises at
modern_stage.py line 190. -/
def rawPos347 : List Nat := [35, 48, 46, 48, 53, 48, 44, 48, 46, 48, 53, 48, 13, 10]

/-- C8: the rejection half of the claim is true of the code (second
conjunct: a projected target outside the strict bounds is refused with no
command written and no state change), but the completion half names an event
the program can never produce.  First conjunct: for every driver, target,
status script and raw response buffer, the completion monitor returns False,
leaves the cached position untouched, and emits no MOVE_COMPLETED event of
any kind — once the stop poll fires, the position query of line 242 raises
TypeError at line 190 (see query_pos) and the handler of lines 294-303 runs.
Third conjunct evaluates the failing input: a valid relative move of +50 um
on the default X axis with the motor stopping at the second poll and the
controller answering the position read with rawPos347 — instead of the
promised successful MOVE_COMPLETED with the cache at 0 + 50, the run returns
False with ERROR_OCCURRED and the cache still at 0. -/
theorem C8_successful_move_completed_unreachable :
    (∀ (d : Driver) (t : ℚ) (sts : List (Option Bool)) (raw : List Nat),
      (StageControl.wait_for_move_completion d t sts raw).ret = false ∧
      (StageControl.wait_for_move_completion d t sts raw).drv.last_position =
        d.last_position ∧
      (∀ tgt act s, Event.moveCompleted tgt act s ∉
        (StageControl.wait_for_move_completion d t sts raw).events)) ∧
    (∀ (d : Driver) (dist : ℚ) (s : Bool),
      ¬(d.position_limits.1 < d.last_position + dist ∧
          d.last_position + dist < d.position_limits.2) →
      StageControl.move_relative d dist s =
        { ret := none, drv := d, wire := [], events := [Event.errorOccurred] }) ∧
    ((StageControl.move_relative_and_wait d347 50 true [some false, some true]
        rawPos347).ret = false ∧
      (StageControl.move_relative_and_wait d347 50 true [some false, some true]
        rawPos347).drv.last_position = 0 ∧
      (StageControl.move_relative_and_wait d347 50 true [some false, some true]
        rawPos347).events = [Event.moveStarted (some 50), Event.errorOccurred]) := by
  refine ⟨?_, ?_, ?_⟩
  · intro d t sts raw
    unfold StageControl.wait_for_move_completion
    rcases hpl : StageControl.pollLoop sts with _ | ⟨b, k⟩
    · exact ⟨rfl, rfl, by simp⟩
    · cases b with
      | false => exact ⟨rfl, rfl, by simp⟩
      | true =>
          rcases raw with _ | ⟨b0, rest⟩
          · exact ⟨rfl, rfl, by simp [StageControl.query_pos]⟩
          · exact ⟨rfl, rfl, by simp [StageControl.query_pos]⟩
  · intro d dist s hb
    unfold StageControl.move_relative
    simp [hb]
  · refine ⟨?_, ?_, ?_⟩ <;>
      norm_num [StageControl.move_relative_and_wait, StageControl.move_relative,
        StageControl.wait_for_move_completion, StageControl.pollLoop,
        StageControl.query_pos, StageControl.staWires, rawPos347,
        d347, createDriver, cfg347]

/-- C8 witness: the dead-code conjunct applied at the concrete monitor run
of the failing input, and the rejection conjunct applied to a projected
target landing on the lower limit. -/
theorem C8_successful_move_completed_unreachable_witness :
    ((StageControl.wait_for_move_completion d347 50 [some false, some true]
        rawPos347).ret = false ∧
      (StageControl.wait_for_move_completion d347 50 [some false, some true]
        rawPos347).drv.last_position = d347.last_position ∧
      (∀ tgt act s, Event.moveCompleted tgt act s ∉
        (StageControl.wait_for_move_completion d347 50 [some false, some true]
          rawPos347).events)) ∧
    (¬(d347.position_limits.1 < d347.last_position + (-24940) ∧
        d347.last_position + (-24940) < d347.position_limits.2) ∧
      StageControl.move_relative d347 (-24940) true =
        { ret := none, drv := d347, wire := [], events := [Event.errorOccurred] }) := by
  have hb : ¬(d347.position_limits.1 < d347.last_position + (-24940) ∧
      d347.last_position + (-24940) < d347.position_limits.2) := by
    norm_num [d347, createDriver, cfg347]
  exact ⟨C8_successful_move_completed_unreachable.1 d347 50 [some false, some true]
      rawPos347,
    hb, C8_successful_move_completed_unreachable.2.1 d347 (-24940) true hb⟩

/-! ## C6 -/

/-- Helper: initialize never touches the configuration. -/
theorem initialize_axes_cfg (m : ManagerState) (axes : List AxisType)
    (connOk : AxisType → Bool) :
    (StageManager.initialize_axes m axes connOk).2.cfg = m.cfg := by
  induction axes generalizing m with
  | nil => rfl
  | cons b rest ih =>
      unfold StageManager.initialize_axes
      by_cases hb : connOk b = true
      · simpa [hb] using ih (setLastPos (setMotor m b (createDriver m.cfg b)) b 0)
      · simpa [hb] using ih m

/-- Helper: an axis that is not requested, or whose connect failed, keeps its
previous motor entry: failed axes are never added to the live set. -/
theorem initialize_axes_untouched (m : ManagerState) (axes : List AxisType)
    (connOk : AxisType → Bool) (a : AxisType)
    (h : a ∉ axes ∨ connOk a = false) :
    (StageManager.initialize_axes m axes connOk).2.motors a = m.motors a := by
  induction axes generalizing m with
  | nil => rfl
  | cons b rest ih =>
      unfold StageManager.initialize_axes
      have hrest : a ∉ rest ∨ connOk a = false := by
        rcases h with h | h
        · exact Or.inl (fun hmem => h (List.mem_cons_of_mem _ hmem))
        · exact Or.inr h
      by_cases hb : connOk b = true
      · have hab : a ≠ b := by
          rcases h with h | h
          · exact fun he => h (he ▸ List.mem_cons_self _ _)
          · exact fun he => by rw [he] at h; rw [h] at hb; exact Bool.false_ne_true hb
        have := ih (setLastPos (setMotor m b (createDriver m.cfg b)) b 0) hrest
        simpa [hb, setLastPos, setMotor, hab] using this
      · simpa [hb] using ih m hrest

/-- Helper: a requested axis whose connect succeeded ends in the live set
with a freshly configured driver. -/
theorem initialize_axes_added (m : ManagerState) (axes : List AxisType)
    (connOk : AxisType → Bool) (a : AxisType)
    (hmem : a ∈ axes) (hok : connOk a = true) :
    (StageManager.initialize_axes m axes connOk).2.motors a =
      some (createDriver m.cfg a) := by
  induction axes generalizing m with
  | nil => cases hmem
  | cons b rest ih =>
      unfold StageManager.initialize_axes
      by_cases har : a ∈ rest
      · by_cases hb : connOk b = true
        · have := ih (setLastPos (setMotor m b (createDriver m.cfg b)) b 0) har
          simpa [hb] using this
        · simpa [hb] using ih m har
      · have hab : a = b := by
          rcases List.mem_cons.mp hmem with h | h
          · exact h
          · exact (har h).elim
        subst hab
        rw [if_pos hok]
        show (StageManager.initialize_axes
            (setLastPos (setMotor m a (createDriver m.cfg a)) a 0) rest connOk).2.motors a =
          some (createDriver m.cfg a)
        rw [initialize_axes_untouched
          (setLastPos (setMotor m a (createDriver m.cfg a)) a 0) rest connOk a
          (Or.inl har)]
        simp [setLastPos, setMotor]

/-- Helper: the aggregate result is the conjunction of the per-axis connect
outcomes over the requested list. -/
theorem initialize_axes_ret (m : ManagerState) (axes : List AxisType)
    (connOk : AxisType → Bool) :
    (StageManager.initialize_axes m axes connOk).1 = axes.all connOk := by
  induction axes generalizing m with
  | nil => rfl
  | cons b rest ih =>
      unfold StageManager.initialize_axes
      by_cases hb : connOk b = true
      · simp [List.all_cons, hb, ih]
      · simp [List.all_cons, hb, ih]

/-- C6: initialize returns success iff every requested axis connected, an
axis whose connect failed is never added to the live motor set (its previous
entry, normally absent, is kept), and a requested axis that connected ends
registered with a driver built from the stage configuration. -/
theorem C6_initialize_all_or_excluded (m : ManagerState) (axes : List AxisType)
    (connOk : AxisType → Bool) :
    ((StageManager.initialize_axes m axes connOk).1 = true ↔
      ∀ a ∈ axes, connOk a = true) ∧
    (∀ a, connOk a = false →
      (StageManager.initialize_axes m axes connOk).2.motors a = m.motors a) ∧
    (∀ a ∈ axes, connOk a = true →
      (StageManager.initialize_axes m axes connOk).2.motors a =
        some (createDriver m.cfg a)) := by
  refine ⟨?_, ?_, ?_⟩
  · rw [initialize_axes_ret]
    simp [List.all_eq_true]
  · intro a ha
    exact initialize_axes_untouched m axes connOk a (Or.inr ha)
  · intro a hmem hok
    exact initialize_axes_added m axes connOk a hmem hok

/-- Connect oracle for the C6 witness: X connects, everything else fails. -/
def connX : AxisType → Bool := fun a => if a = AxisType.X then true else false

/-- Empty manager for the C6 witness. -/
def mEmpty : ManagerState :=
  { cfg := cfg347, motors := fun _ => none, lastPositions := fun _ => none }

/-- C6 witness: requesting X and Y when only X can connect yields an
aggregate failure, leaves Y out of the live set, and registers X with its
configured driver. -/
theorem C6_initialize_all_or_excluded_witness :
    ((StageManager.initialize_axes mEmpty [AxisType.X, AxisType.Y] connX).1 = false) ∧
    ((StageManager.initialize_axes mEmpty [AxisType.X, AxisType.Y] connX).2.motors
        AxisType.Y = none) ∧
    ((StageManager.initialize_axes mEmpty [AxisType.X, AxisType.Y] connX).2.motors
        AxisType.X = some (createDriver cfg347 AxisType.X)) := by
  have h := C6_initialize_all_or_excluded mEmpty [AxisType.X, AxisType.Y] connX
  refine ⟨?_, ?_, ?_⟩
  · cases hval : (StageManager.initialize_axes mEmpty [AxisType.X, AxisType.Y] connX).1 with
    | false => rfl
    | true =>
        have hall := h.1.mp hval
        have := hall AxisType.Y (by simp)
        simp [connX] at this
  · have := h.2.1 AxisType.Y (by simp [connX])
    simpa [mEmpty] using this
  · exact h.2.2 AxisType.X (by simp) (by simp [connX])

/-! ## C7 -/

/-- C7: move_xy_rel reports success exactly when both the X leg and the Y
leg report success (each leg's report being its move_relative return value);
each axis's driver is left in the state its own leg produced regardless of
the other leg's outcome; and on any partial or total failure the operation
returns a failure and the manager's cached last positions are untouched. -/
theorem C7_move_xy_rel_success_iff (m : ManagerState) (dx dy : ℚ) (sx sy : Bool)
    (dX dY : Driver) (pX pY : ℚ)
    (hX : m.motors AxisType.X = some dX) (hY : m.motors AxisType.Y = some dY)
    (hpX : m.lastPositions AxisType.X = some pX)
    (hpY : m.lastPositions AxisType.Y = some pY) :
    ((StageManager.move_xy_rel m dx dy sx sy).ret = some (Except.ok true) ↔
      ((StageControl.move_relative dX dx sx).ret.isSome = true ∧
        (StageControl.move_relative dY dy sy).ret.isSome = true)) ∧
    (StageManager.move_xy_rel m dx dy sx sy).st.motors AxisType.X =
      some (StageControl.move_relative dX dx sx).drv ∧
    (StageManager.move_xy_rel m dx dy sx sy).st.motors AxisType.Y =
      some (StageControl.move_relative dY dy sy).drv ∧
    (¬((StageControl.move_relative dX dx sx).ret.isSome = true ∧
        (StageControl.move_relative dY dy sy).ret.isSome = true) →
      (StageManager.move_xy_rel m dx dy sx sy).ret = some (Except.ok false) ∧
      (StageManager.move_xy_rel m dx dy sx sy).st.lastPositions = m.lastPositions) := by
  unfold StageManager.move_xy_rel
  rw [hX, hY]
  cases ha : (StageControl.move_relative dX dx sx).ret.isSome with
  | false =>
      simp [ha, setMotor, setLastPos]
  | true =>
      cases hb : (StageControl.move_relative dY dy sy).ret.isSome with
      | false => simp [ha, hb, setMotor, setLastPos]
      | true => simp [ha, hb, hpX, hpY, setMotor, setLastPos]

/-- Y-axis driver fixture built from the default configuration. -/
def dY347 : Driver := createDriver cfg347 AxisType.Y

/-- Z-axis driver fixture built from the default configuration. -/
def dZ347 : Driver := createDriver cfg347 AxisType.Z

/-- Manager fixture with X and Y live and cached positions 0. -/
def mXY : ManagerState :=
  { cfg := cfg347
    motors := fun a =>
      if a = AxisType.X then some d347
      else if a = AxisType.Y then some dY347 else none
    lastPositions := fun a =>
      if a = AxisType.X then some 0
      else if a = AxisType.Y then some 0 else none }

/-- C7 witness: a valid X leg (+10 um) combined with a Y leg whose projected
target +50000 um is out of bounds yields the partial-failure behaviour of
the theorem at a concrete input. -/
theorem C7_move_xy_rel_success_iff_witness :
    (mXY.motors AxisType.X = some d347 ∧ mXY.motors AxisType.Y = some dY347 ∧
      mXY.lastPositions AxisType.X = some 0 ∧ mXY.lastPositions AxisType.Y = some 0) ∧
    (((StageManager.move_xy_rel mXY 10 50000 true true).ret = some (Except.ok true) ↔
        ((StageControl.move_relative d347 10 true).ret.isSome = true ∧
          (StageControl.move_relative dY347 50000 true).ret.isSome = true)) ∧
      (StageManager.move_xy_rel mXY 10 50000 true true).st.motors AxisType.X =
        some (StageControl.move_relative d347 10 true).drv ∧
      (StageManager.move_xy_rel mXY 10 50000 true true).st.motors AxisType.Y =
        some (StageControl.move_relative dY347 50000 true).drv ∧
      (¬((StageControl.move_relative d347 10 true).ret.isSome = true ∧
          (StageControl.move_relative dY347 50000 true).ret.isSome = true) →
        (StageManager.move_xy_rel mXY 10 50000 true true).ret = some (Except.ok false) ∧
        (StageManager.move_xy_rel mXY 10 50000 true true).st.lastPositions =
          mXY.lastPositions)) :=
  ⟨⟨rfl, rfl, rfl, rfl⟩,
    C7_move_xy_rel_success_iff mXY 10 50000 true true d347 dY347 0 0 rfl rfl rfl rfl⟩

/-! ## C10 -/

/-- C10: after a successful move_xy_absolute((px, py)) the manager's cached
last positions of X and Y are the previous cached values plus px and py
(the targets are added, lines 451-452 of stage_manager.py), whereas
move_single_axis in absolute mode assigns the target over the cached value
(line 382). -/
theorem C10_move_xy_absolute_adds_targets (m : ManagerState) (px py t : ℚ)
    (sx sy s : Bool) (dX dY : Driver) (pX pY : ℚ)
    (hX : m.motors AxisType.X = some dX) (hY : m.motors AxisType.Y = some dY)
    (hpX : m.lastPositions AxisType.X = some pX)
    (hpY : m.lastPositions AxisType.Y = some pY)
    (hax : (StageControl.move_absolute dX px sx).ret = true)
    (hay : (StageControl.move_absolute dY py sy).ret = true)
    (hat : (StageControl.move_absolute dX t s).ret = true) :
    (StageManager.move_xy_absolute m px py sx sy).st.lastPositions AxisType.X =
      some (pX + px) ∧
    (StageManager.move_xy_absolute m px py sx sy).st.lastPositions AxisType.Y =
      some (pY + py) ∧
    (StageManager.move_xy_absolute m px py sx sy).ret = some (Except.ok true) ∧
    (StageManager.move_single_axis m AxisType.X t false s).st.lastPositions
      AxisType.X = some t := by
  refine ⟨?_, ?_, ?_, ?_⟩
  · unfold StageManager.move_xy_absolute
    rw [hX, hY]; simp [hax, hay, hpX, hpY, setMotor, setLastPos]
  · unfold StageManager.move_xy_absolute
    rw [hX, hY]; simp [hax, hay, hpX, hpY, setMotor, setLastPos]
  · unfold StageManager.move_xy_absolute
    rw [hX, hY]; simp [hax, hay, hpX, hpY, setMotor, setLastPos]
  · unfold StageManager.move_single_axis
    rw [hX]; simp [hat, setMotor, setLastPos]

/-- C10 witness: with both axes cached at 0, move_xy_absolute((100, 200))
leaves caches at 0+100 and 0+200, while move_single_axis(X, 300, absolute)
caches 300. -/
theorem C10_move_xy_absolute_adds_targets_witness :
    ((StageControl.move_absolute d347 100 true).ret = true ∧
      (StageControl.move_absolute dY347 200 true).ret = true ∧
      (StageControl.move_absolute d347 300 true).ret = true) ∧
    ((StageManager.move_xy_absolute mXY 100 200 true true).st.lastPositions
        AxisType.X = some (0 + 100) ∧
      (StageManager.move_xy_absolute mXY 100 200 true true).st.lastPositions
        AxisType.Y = some (0 + 200) ∧
      (StageManager.move_xy_absolute mXY 100 200 true true).ret =
        some (Except.ok true) ∧
      (StageManager.move_single_axis mXY AxisType.X 300 false true).st.lastPositions
        AxisType.X = some 300) :=
  ⟨⟨by decide, by decide, by decide⟩,
    C10_move_xy_absolute_adds_targets mXY 100 200 300 true true true d347 dY347 0 0
      rfl rfl rfl rfl (by decide) (by decide) (by decide)⟩

/-! ## C2 -/

/-- C2: when home_limits is invoked on Z with Y and Z live (whatever Y's
current position), the first driver call it issues is an absolute Y move
targeting config.position_limits[Y].hi; its whole wire trace decomposes as
the Y move's writes followed by a Z-homing remainder, the remainder is empty
whenever the Y move reports failure, and the Y move's writes are all
addressed to axis 2 (Y) and never to axis 3 (Z) — so no Z command ever
precedes the Y move.  The ordering sits inside StageManager.home_limits
itself, not in its caller. -/
theorem C2_home_limits_z_issues_y_move_first (m : ManagerState) (ySend : Bool)
    (o : StageControl.HLOracle) (dY dZ : Driver)
    (hY : m.motors AxisType.Y = some dY) (hZ : m.motors AxisType.Z = some dZ)
    (haxY : dY.axis = AxisType.Y) :
    ∃ zw : List Wire,
      (StageManager.home_limits m AxisType.Z ySend o).calls.head? =
        some (MgrCall.moveAbs AxisType.Y (m.cfg.position_limits AxisType.Y).2) ∧
      (StageManager.home_limits m AxisType.Z ySend o).wire =
        (StageControl.move_absolute dY (m.cfg.position_limits AxisType.Y).2 ySend).wire
          ++ zw ∧
      ((StageControl.move_absolute dY (m.cfg.position_limits AxisType.Y).2 ySend).ret
          = false → zw = []) ∧
      (∀ w ∈ (StageControl.move_absolute dY
          (m.cfg.position_limits AxisType.Y).2 ySend).wire,
        w.axisNum = AXIS_MAP AxisType.Y ∧ w.axisNum ≠ AXIS_MAP AxisType.Z) := by
  have hwire : ∀ w ∈ (StageControl.move_absolute dY
      (m.cfg.position_limits AxisType.Y).2 ySend).wire,
      w.axisNum = AXIS_MAP AxisType.Y ∧ w.axisNum ≠ AXIS_MAP AxisType.Z := by
    intro w hw
    unfold StageControl.move_absolute at hw
    by_cases hc : dY.position_limits.1 < (m.cfg.position_limits AxisType.Y).2 ∧
        (m.cfg.position_limits AxisType.Y).2 < dY.position_limits.2
    · rw [if_pos hc] at hw
      cases ySend with
      | false => simp at hw
      | true =>
          simp at hw
          rw [hw]
          simp [haxY, AXIS_MAP]
    · rw [if_neg hc] at hw
      simp at hw
  have hout : StageManager.home_limits m AxisType.Z ySend o =
      (if (StageControl.move_absolute dY (m.cfg.position_limits AxisType.Y).2
          ySend).ret then
        { ret := (StageControl.home_limits dZ o).ret.map
            (fun _ => Except.error PyErr.typeError)
          st := setMotor (setMotor m AxisType.Y (StageControl.move_absolute dY
              (m.cfg.position_limits AxisType.Y).2 ySend).drv) AxisType.Z
            (StageControl.home_limits dZ o).drv
          calls := [MgrCall.moveAbs AxisType.Y (m.cfg.position_limits AxisType.Y).2,
            MgrCall.homeLims AxisType.Z]
          wire := (StageControl.move_absolute dY
              (m.cfg.position_limits AxisType.Y).2 ySend).wire ++
            (StageControl.home_limits dZ o).wire }
      else
        { ret := some (Except.ok false)
          st := setMotor m AxisType.Y (StageControl.move_absolute dY
              (m.cfg.position_limits AxisType.Y).2 ySend).drv
          calls := [MgrCall.moveAbs AxisType.Y (m.cfg.position_limits AxisType.Y).2]
          wire := (StageControl.move_absolute dY
              (m.cfg.position_limits AxisType.Y).2 ySend).wire }) := by
    unfold StageManager.home_limits
    rw [hZ, hY]
    rfl
  rw [hout]
  by_cases hr : (StageControl.move_absolute dY (m.cfg.position_limits AxisType.Y).2
      ySend).ret = true
  · rw [if_pos hr]
    refine ⟨(StageControl.home_limits dZ o).wire, rfl, rfl, ?_, hwire⟩
    intro hfalse
    rw [hfalse] at hr
    cases hr
  · rw [if_neg hr]
    refine ⟨[], rfl, by simp, fun _ => rfl, hwire⟩

/-- Manager fixture with Y and Z live (cached positions 0) for the C2
witness. -/
def mYZ : ManagerState :=
  { cfg := cfg347
    motors := fun a =>
      if a = AxisType.Y then some dY347
      else if a = AxisType.Z then some dZ347 else none
    lastPositions := fun _ => some 0 }

/-- Oracle fixture: a fully cooperative controller (every send accepted,
every poll loop stops at the first query, position fields present). -/
def hlGood : StageControl.HLOracle :=
  { sendMLN := true, sts1 := [some true], pos1 := some [-12]
    zroOk := true, sendMLP := true, sts2 := [some true], pos2 := some [152/5] }

/-- C2 witness: the ordering theorem applied to the concrete Y/Z manager
with the cooperative oracle. -/
theorem C2_home_limits_z_issues_y_move_first_witness :
    (mYZ.motors AxisType.Y = some dY347 ∧ mYZ.motors AxisType.Z = some dZ347 ∧
      dY347.axis = AxisType.Y) ∧
    (∃ zw : List Wire,
      (StageManager.home_limits mYZ AxisType.Z true hlGood).calls.head? =
        some (MgrCall.moveAbs AxisType.Y (mYZ.cfg.position_limits AxisType.Y).2) ∧
      (StageManager.home_limits mYZ AxisType.Z true hlGood).wire =
        (StageControl.move_absolute dY347 (mYZ.cfg.position_limits AxisType.Y).2
          true).wire ++ zw ∧
      ((StageControl.move_absolute dY347 (mYZ.cfg.position_limits AxisType.Y).2
          true).ret = false → zw = []) ∧
      (∀ w ∈ (StageControl.move_absolute dY347
          (mYZ.cfg.position_limits AxisType.Y).2 true).wire,
        w.axisNum = AXIS_MAP AxisType.Y ∧ w.axisNum ≠ AXIS_MAP AxisType.Z)) :=
  ⟨⟨rfl, rfl, rfl⟩,
    C2_home_limits_z_issues_y_move_first mYZ true hlGood dY347 dZ347 rfl rfl rfl⟩

/-! ## C4 -/

/-- Manager fixture with only X live for the C4 evaluation. -/
def mOnlyX : ManagerState :=
  { cfg := cfg347
    motors := fun a => if a = AxisType.X then some d347 else none
    lastPositions := fun a => if a = AxisType.X then some 0 else none }

/-- C4: evaluation of home_limits at a failing input on which the claim
promises success.  With a fully cooperative controller (hlGood: both limit
switches reached, both position reads answered), the X-axis driver run still
ends in the exception path — line 671 of modern_stage.py calls
`pos_resp2.split(",")` on the list returned by `_query_command`, raising
AttributeError — so the driver returns False, never rewrites its
position_limits, and emits ERROR_OCCURRED instead of HOMED; and the manager
then executes `ok, pos_lims = False` (stage_manager.py line 321), raising
TypeError, so no (lo, hi) pair is ever returned and the configured soft
limits are never overwritten (line 323 is unreachable). -/
theorem C4_home_limits_never_returns_pair :
    (StageControl.home_limits d347 hlGood).ret = some false ∧
    (StageControl.home_limits d347 hlGood).drv.position_limits =
      d347.position_limits ∧
    Event.errorOccurred ∈ (StageControl.home_limits d347 hlGood).events ∧
    Event.homed ∉ (StageControl.home_limits d347 hlGood).events ∧
    (StageManager.home_limits mOnlyX AxisType.X true hlGood).ret =
      some (Except.error PyErr.typeError) ∧
    (StageManager.home_limits mOnlyX AxisType.X true hlGood).st.cfg.position_limits
      AxisType.X = cfg347.position_limits AxisType.X := by
  refine ⟨rfl, rfl, by decide, by decide, rfl, rfl⟩
